import Mathlib

/-!
Shallow embedding of the ShellHub device-registry core: the device model,
the permission guard, tag validation, the HTTP-layer device handlers
(src/api/routes/device.go), the tag-mutation service layer and the setup
saga, together with theorems settling the specification claims.

Stateful collaborators (the store, the wrapped service) are embedded as
explicit state transformers over an abstract state type, so that side
effects ("the operation was never invoked", "no store write occurred")
are observable as equalities on the threaded state.
-/

namespace ShellHub

/-- Error taxonomy of the core, following pkg/errors and the typed service
errors (NewErrDeviceNotFound, NewErrTagDuplicated, ...). ShellHub errors
carry a wrapped "next" error which may be Go nil; `nilErr` stands for that
nil, and `store msg` stands for an opaque store-layer error such as
`errors.New("error", "", 0)` in the tests. -/
inductive GoErr where
  | nilErr
  | forbidden
  | validation
  | deviceNotFound (uid : String) (next : GoErr)
  | tagDuplicated (tag : String) (next : GoErr)
  | tagNotFound (tag : String) (next : GoErr)
  | userDuplicated (usernames : List String) (next : GoErr)
  | namespaceDuplicated (next : GoErr)
  | store (message : String)
  | corruptInput
deriving DecidableEq, Repr

/-- Device record (models.Device), restricted to the fields the sampled
code touches: identity, owning tenant, name, lifecycle status (a string
type in Go), online flag, public-URL configuration and the tag list. -/
structure Device where
  uid : String := ""
  tenantID : String := ""
  name : String := ""
  status : String := ""
  online : Bool := false
  publicURL : Bool := false
  publicURLAddress : String := ""
  tags : List String := []
deriving DecidableEq, Repr

/-- The device actions of guard.Actions.Device referenced by the handlers
in src/api/routes/device.go. -/
inductive DeviceAction where
  | remove
  | rename
  | accept
  | createTag
  | removeTag
  | updateTag
  | update
deriving DecidableEq, Repr

/-- A role-to-action capability table: `table role action = true` means the
role is authorized for the action. The spec treats the concrete table as
configuration data, so it is a parameter here. -/
def CapTable : Type := String → DeviceAction → Bool

/-- Modelled from the spec: guard.EvaluatePermission (package
api/pkg/guard, whose source is not under src/; src/api/routes/device.go
only calls it). Looks up whether the role is authorized for the action in
the capability table; if unauthorized it returns an ErrForbidden-class
error without invoking the wrapped operation, and if authorized it invokes
the operation exactly once and propagates its outcome unchanged. The
wrapped operation is a state transformer so that invocation and side
effects are observable on the threaded state. -/
def EvaluatePermission {σ : Type} (table : CapTable) (role : String)
    (action : DeviceAction) (operation : σ → σ × Option GoErr) (s : σ) :
    σ × Option GoErr :=
  if table role action then operation s else (s, some GoErr.forbidden)

/-- Modelled from the spec: the tag-format validator (§4.1), whose source
is not under src/ (the route tests in src/unnamed/part_000 exercise it at
the request boundary). A tag must have length in [3, 255] and contain
none of the characters forbidden for tags; returns the validation error
on failure, none on success. -/
def validateTag (t : String) : Option GoErr :=
  if t.length < 3 then some GoErr.validation
  else if 255 < t.length then some GoErr.validation
  else if t.data.any (fun c => c = '/' || c = '&' || c = '@') then some GoErr.validation
  else none

/-- Whether a list of tags contains an internal duplicate (exact string
equality), as rejected by the bulk tag-update request validation. -/
def hasInternalDup : List String → Bool
  | [] => false
  | t :: ts => ts.contains t || hasInternalDup ts

/-- Modelled from the spec: request validation for the bulk tag update
(§4.1) — the batch is rejected when it contains internal duplicates, and
every tag must individually pass the tag validator. -/
def validateTags (tags : List String) : Option GoErr :=
  if hasInternalDup tags then some GoErr.validation
  else if tags.any (fun t => (validateTag t).isSome) then some GoErr.validation
  else none

/-- Value of one character in the standard base64 alphabet, none for a
character outside the alphabet (encoding/base64 StdEncoding). -/
def base64DecVal (c : Char) : Option Nat :=
  if 65 ≤ c.toNat ∧ c.toNat ≤ 90 then some (c.toNat - 65)
  else if 97 ≤ c.toNat ∧ c.toNat ≤ 122 then some (c.toNat - 97 + 26)
  else if 48 ≤ c.toNat ∧ c.toNat ≤ 57 then some (c.toNat - 48 + 52)
  else if c = '+' then some 62
  else if c = '/' then some 63
  else none

/-- Decodes base64 input as a sequence of 4-character quanta into bytes
(as Nat values below 256), as base64.StdEncoding.DecodeString does: the
input length must be a multiple of 4, padding with one or two trailing
equals signs is allowed only in the final quantum, and any character
outside the alphabet is a corrupt-input error. -/
def base64DecodeQuanta : List Char → Except GoErr (List Nat)
  | [] => Except.ok []
  | c0 :: c1 :: c2 :: c3 :: rest =>
    match base64DecVal c0, base64DecVal c1 with
    | some v0, some v1 =>
      if c2 = '=' then
        if c3 = '=' && rest.isEmpty then
          Except.ok [v0 * 4 + v1 / 16]
        else Except.error GoErr.corruptInput
      else
        match base64DecVal c2 with
        | some v2 =>
          if c3 = '=' then
            if rest.isEmpty then
              Except.ok [v0 * 4 + v1 / 16, v1 % 16 * 16 + v2 / 4]
            else Except.error GoErr.corruptInput
          else
            match base64DecVal c3 with
            | some v3 =>
              match base64DecodeQuanta rest with
              | Except.ok bs =>
                Except.ok ((v0 * 4 + v1 / 16) :: (v1 % 16 * 16 + v2 / 4) ::
                  (v2 % 4 * 64 + v3) :: bs)
              | Except.error e => Except.error e
            | none => Except.error GoErr.corruptInput
        | none => Except.error GoErr.corruptInput
    | _, _ => Except.error GoErr.corruptInput
  | _ => Except.error GoErr.corruptInput

/-- base64.StdEncoding.DecodeString: decodes after discarding carriage
returns and newlines, which the Go decoder ignores. -/
def base64Decode (s : String) : Except GoErr (List Nat) :=
  base64DecodeQuanta (s.data.filter (fun c => c != '\r' && c != '\n'))

/-- One structured filter predicate (models.Filter); the handlers treat
filters opaquely and pass them to the service, so only the shape matters
here. -/
structure Filter where
  kind : String := ""
  params : String := ""
deriving DecidableEq, Repr

/-- The query-string payload of GetDeviceList (routes.filterQuery with the
embedded paginator.Query). -/
structure FilterQuery where
  filter : String := ""
  status : String := ""
  sortBy : String := ""
  orderBy : String := ""
  page : Int := 0
  perPage : Int := 0
deriving DecidableEq, Repr

/-- Modelled from the spec: paginator.Query.Normalize (§4.4) — unset page
and per-page values are replaced by the store-defined defaults; the other
query fields pass through verbatim. -/
def FilterQuery.normalize (q : FilterQuery) : FilterQuery :=
  { q with page := if q.page < 1 then 1 else q.page,
           perPage := if q.perPage < 1 then 10 else q.perPage }

/-- The request context (gateway.Context) as the handlers consume it: the
role of the caller, the optional tenant, and the outcomes of c.Bind and of
c.Validate for those request types whose validator is not modelled
concretely here. -/
structure Ctx where
  role : String := ""
  tenant : Option String := none
  bindErr : Option GoErr := none
  validateErr : Option GoErr := none

/-- The tenant string a handler computes: the tenant ID when c.Tenant()
is non-nil, the empty string otherwise. -/
def tenantOf (c : Ctx) : String := c.tenant.getD ""

/-- Handler outputs: c.NoContent, c.JSON of one device, or c.JSON of a
device list with the X-Total-Count header value. -/
inductive HOut where
  | noContent (status : Nat)
  | json (status : Nat) (device : Device)
  | jsonList (status : Nat) (devices : List Device) (totalCount : Int)
deriving DecidableEq, Repr

/-- The service collaborator of the handlers (api/services.Service), as
abstract state transformers so that invocations are observable. -/
structure Service (σ : Type) where
  getDevice : String → σ → σ × Except GoErr Device
  deleteDevice : String → String → σ → σ × Option GoErr
  renameDevice : String → String → String → σ → σ × Option GoErr
  listDevices : String → Int → Int → List Filter → String → String →
    String → σ → σ × Except GoErr (List Device × Int)
  getDeviceByPublicURLAddress : String → σ → σ × Except GoErr Device
  lookupDevice : String → String → σ → σ × Except GoErr Device
  updateDeviceStatus : String → String → String → σ → σ × Option GoErr
  createDeviceTag : String → String → σ → σ × Option GoErr
  removeDeviceTag : String → String → σ → σ × Option GoErr
  updateDeviceTag : String → List String → σ → σ × Option GoErr
  updateDevice : String → String → Option String → Option Bool → σ →
    σ × Option GoErr

/-- requests.DeviceGet. -/
structure DeviceGet where
  uid : String := ""

/-- requests.DeviceDelete. -/
structure DeviceDelete where
  uid : String := ""

/-- requests.DeviceRename. -/
structure DeviceRename where
  uid : String := ""
  name : String := ""

/-- requests.DevicePublicURLAddress. -/
structure DevicePublicURLAddress where
  publicURLAddress : String := ""

/-- requests.DeviceLookup, restricted to the fields the handler reads. -/
structure DeviceLookup where
  domain : String := ""
  name : String := ""

/-- requests.DeviceUpdateStatus. -/
structure DeviceUpdateStatus where
  uid : String := ""
  status : String := ""

/-- requests.DeviceCreateTag. -/
structure DeviceCreateTag where
  uid : String := ""
  tag : String := ""

/-- requests.DeviceRemoveTag. -/
structure DeviceRemoveTag where
  uid : String := ""
  tag : String := ""

/-- requests.DeviceUpdateTag. -/
structure DeviceUpdateTag where
  uid : String := ""
  tags : List String := []

/-- requests.DeviceUpdate. -/
structure DeviceUpdate where
  uid : String := ""
  name : Option String := none
  publicURL : Option Bool := none

/-- The tail every guarded handler shares: `if err != nil { return err };
return c.NoContent(http.StatusOK)` applied to the outcome of the guard. -/
def guardWrap {σ : Type} (r : σ × Option GoErr) : σ × Except GoErr HOut :=
  match r.2 with
  | some e => (r.1, Except.error e)
  | none => (r.1, Except.ok (HOut.noContent 200))

/-- Modelled from the spec: c.Validate for the single-tag requests
(DeviceCreateTag, DeviceRemoveTag) — a non-empty uid is required, and the
tag must pass the tag validator; the route tests in src/unnamed/part_000
exercise exactly these rules at the request boundary. -/
def validateTagRequest (uid tag : String) : Option GoErr :=
  if uid = "" then some GoErr.validation else validateTag tag

/-- Modelled from the spec: c.Validate for requests.DeviceUpdateTag — a
non-empty uid is required, and the tag batch must pass the bulk tag
validation (internal duplicates rejected, each tag format-valid). -/
def validateTagsRequest (uid : String) (tags : List String) : Option GoErr :=
  if uid = "" then some GoErr.validation else validateTags tags

/-- Handler.GetDevice (src/api/routes/device.go): bind, validate, fetch
the device from the service, return it as JSON. No permission guard. -/
def GetDevice {σ : Type} (svc : Service σ) (c : Ctx) (req : DeviceGet)
    (s : σ) : σ × Except GoErr HOut :=
  match c.bindErr with
  | some e => (s, Except.error e)
  | none =>
    match c.validateErr with
    | some e => (s, Except.error e)
    | none =>
      match svc.getDevice req.uid s with
      | (s1, Except.error e) => (s1, Except.error e)
      | (s1, Except.ok device) => (s1, Except.ok (HOut.json 200 device))

/-- Handler.GetDeviceByPublicURLAddress (src/api/routes/device.go): bind,
validate, fetch by public URL address, return as JSON. No guard. -/
def GetDeviceByPublicURLAddress {σ : Type} (svc : Service σ) (c : Ctx)
    (req : DevicePublicURLAddress) (s : σ) : σ × Except GoErr HOut :=
  match c.bindErr with
  | some e => (s, Except.error e)
  | none =>
    match c.validateErr with
    | some e => (s, Except.error e)
    | none =>
      match svc.getDeviceByPublicURLAddress req.publicURLAddress s with
      | (s1, Except.error e) => (s1, Except.error e)
      | (s1, Except.ok device) => (s1, Except.ok (HOut.json 200 device))

/-- Handler.LookupDevice (src/api/routes/device.go): bind, validate, look
the device up by domain and name, return as JSON. No guard. -/
def LookupDevice {σ : Type} (svc : Service σ) (c : Ctx)
    (req : DeviceLookup) (s : σ) : σ × Except GoErr HOut :=
  match c.bindErr with
  | some e => (s, Except.error e)
  | none =>
    match c.validateErr with
    | some e => (s, Except.error e)
    | none =>
      match svc.lookupDevice req.domain req.name s with
      | (s1, Except.error e) => (s1, Except.error e)
      | (s1, Except.ok device) => (s1, Except.ok (HOut.json 200 device))

/-- Handler.GetDeviceList (src/api/routes/device.go): bind the query,
normalize it, base64-decode the filter payload (hard error on decode
failure), json-unmarshal the decoded bytes into filter predicates — the
unmarshal error is consulted only when the decoded payload is non-empty,
so an empty payload yields the empty predicate list — and invoke the
service. `unmarshalFilters` stands for encoding/json.Unmarshal into a
[]models.Filter. No guard. -/
def GetDeviceList {σ : Type} (svc : Service σ)
    (unmarshalFilters : List Nat → Except GoErr (List Filter)) (c : Ctx)
    (query : FilterQuery) (s : σ) : σ × Except GoErr HOut :=
  match c.bindErr with
  | some e => (s, Except.error e)
  | none =>
    let query := query.normalize
    match base64Decode query.filter with
    | Except.error e => (s, Except.error e)
    | Except.ok raw =>
      match (if 0 < raw.length then unmarshalFilters raw else Except.ok []) with
      | Except.error e => (s, Except.error e)
      | Except.ok filter =>
        match svc.listDevices (tenantOf c) query.page query.perPage filter
            query.status query.sortBy query.orderBy s with
        | (s1, Except.error e) => (s1, Except.error e)
        | (s1, Except.ok (devices, count)) =>
          (s1, Except.ok (HOut.jsonList 200 devices count))

/-- Handler.DeleteDevice (src/api/routes/device.go): bind, validate,
compute the tenant, then one guard.EvaluatePermission call at the
device-remove action wrapping the single service.DeleteDevice call. -/
def DeleteDevice {σ : Type} (table : CapTable) (svc : Service σ) (c : Ctx)
    (req : DeviceDelete) (s : σ) : σ × Except GoErr HOut :=
  match c.bindErr with
  | some e => (s, Except.error e)
  | none =>
    match c.validateErr with
    | some e => (s, Except.error e)
    | none =>
      guardWrap (EvaluatePermission table c.role DeviceAction.remove
        (fun s => svc.deleteDevice req.uid (tenantOf c) s) s)

/-- Handler.RenameDevice (src/api/routes/device.go): bind, validate,
compute the tenant, then one guard call at the rename action wrapping the
single service.RenameDevice call. -/
def RenameDevice {σ : Type} (table : CapTable) (svc : Service σ) (c : Ctx)
    (req : DeviceRename) (s : σ) : σ × Except GoErr HOut :=
  match c.bindErr with
  | some e => (s, Except.error e)
  | none =>
    match c.validateErr with
    | some e => (s, Except.error e)
    | none =>
      guardWrap (EvaluatePermission table c.role DeviceAction.rename
        (fun s => svc.renameDevice req.uid req.name (tenantOf c) s) s)

/-- The status translation map literal of Handler.UpdateDeviceStatus: a Go
map lookup, whose zero value (the empty status) is returned for any key
other than the four listed; the target DeviceStatus constant values
follow the state names of the spec. -/
def statusLookup (st : String) : String :=
  if st = "accept" then "accepted"
  else if st = "reject" then "rejected"
  else if st = "pending" then "pending"
  else if st = "unused" then "unused"
  else ""

/-- Handler.UpdateDeviceStatus (src/api/routes/device.go): bind, validate,
compute the tenant, translate the status string through the map literal
(zero value for unknown strings), then one guard call at the accept
action wrapping the single service.UpdateDeviceStatus call. -/
def UpdateDeviceStatus {σ : Type} (table : CapTable) (svc : Service σ)
    (c : Ctx) (req : DeviceUpdateStatus) (s : σ) : σ × Except GoErr HOut :=
  match c.bindErr with
  | some e => (s, Except.error e)
  | none =>
    match c.validateErr with
    | some e => (s, Except.error e)
    | none =>
      guardWrap (EvaluatePermission table c.role DeviceAction.accept
        (fun s => svc.updateDeviceStatus (tenantOf c) req.uid
          (statusLookup req.status) s) s)

/-- Handler.CreateDeviceTag (src/api/routes/device.go): bind, validate the
tag request, then one guard call at the create-tag action wrapping the
single service.CreateDeviceTag call. -/
def CreateDeviceTag {σ : Type} (table : CapTable) (svc : Service σ)
    (c : Ctx) (req : DeviceCreateTag) (s : σ) : σ × Except GoErr HOut :=
  match c.bindErr with
  | some e => (s, Except.error e)
  | none =>
    match validateTagRequest req.uid req.tag with
    | some e => (s, Except.error e)
    | none =>
      guardWrap (EvaluatePermission table c.role DeviceAction.createTag
        (fun s => svc.createDeviceTag req.uid req.tag s) s)

/-- Handler.RemoveDeviceTag (src/api/routes/device.go): bind, validate the
tag request, then one guard call at the remove-tag action wrapping the
single service.RemoveDeviceTag call. -/
def RemoveDeviceTag {σ : Type} (table : CapTable) (svc : Service σ)
    (c : Ctx) (req : DeviceRemoveTag) (s : σ) : σ × Except GoErr HOut :=
  match c.bindErr with
  | some e => (s, Except.error e)
  | none =>
    match validateTagRequest req.uid req.tag with
    | some e => (s, Except.error e)
    | none =>
      guardWrap (EvaluatePermission table c.role DeviceAction.removeTag
        (fun s => svc.removeDeviceTag req.uid req.tag s) s)

/-- Handler.UpdateDeviceTag (src/api/routes/device.go): bind, validate the
tag batch request, then one guard call at the update-tag action wrapping
the single service.UpdateDeviceTag call. -/
def UpdateDeviceTag {σ : Type} (table : CapTable) (svc : Service σ)
    (c : Ctx) (req : DeviceUpdateTag) (s : σ) : σ × Except GoErr HOut :=
  match c.bindErr with
  | some e => (s, Except.error e)
  | none =>
    match validateTagsRequest req.uid req.tags with
    | some e => (s, Except.error e)
    | none =>
      guardWrap (EvaluatePermission table c.role DeviceAction.updateTag
        (fun s => svc.updateDeviceTag req.uid req.tags s) s)

/-- Handler.UpdateDevice (src/api/routes/device.go): bind, validate,
compute the tenant, then one guard call at the update action wrapping the
single service.UpdateDevice call. -/
def UpdateDevice {σ : Type} (table : CapTable) (svc : Service σ) (c : Ctx)
    (req : DeviceUpdate) (s : σ) : σ × Except GoErr HOut :=
  match c.bindErr with
  | some e => (s, Except.error e)
  | none =>
    match c.validateErr with
    | some e => (s, Except.error e)
    | none =>
      guardWrap (EvaluatePermission table c.role DeviceAction.update
        (fun s => svc.updateDevice (tenantOf c) req.uid req.name
          req.publicURL s) s)

/-- The store collaborator of the tag-mutation service layer, as abstract
state transformers (store.Store restricted to the operations the tag
services call). -/
structure TagStore (σ : Type) where
  deviceGet : String → σ → σ × Except GoErr Device
  deviceCreateTag : String → String → σ → σ × Option GoErr
  deviceRemoveTag : String → String → σ → σ × Option GoErr
  deviceUpdateTag : String → List String → σ → σ × Option GoErr

/-- Modelled from the spec (§4.3) and src/api/services/device_tags_test.go
(the service source is not under src/): service.CreateDeviceTag fetches
the device, turning any DeviceGet error into the typed device-not-found
error wrapping it; fails with the duplicated-tag error when the tag is
already in the tag list of the device; otherwise issues the DeviceCreateTag
store write and returns its outcome unchanged. -/
def svcCreateDeviceTag {σ : Type} (st : TagStore σ) (uid tag : String)
    (s : σ) : σ × Option GoErr :=
  match st.deviceGet uid s with
  | (s1, Except.error e) => (s1, some (GoErr.deviceNotFound uid e))
  | (s1, Except.ok device) =>
    if device.tags.contains tag then
      (s1, some (GoErr.tagDuplicated tag GoErr.nilErr))
    else
      st.deviceCreateTag uid tag s1

/-- Modelled from the spec (§4.3) and src/api/services/device_tags_test.go
(the service source is not under src/): service.RemoveDeviceTag fetches
the device, turning any DeviceGet error into the typed device-not-found
error wrapping it; fails with the tag-not-found error when the tag is not
in the tag list of the device; otherwise issues the DeviceRemoveTag store
write and returns its outcome unchanged. -/
def svcRemoveDeviceTag {σ : Type} (st : TagStore σ) (uid tag : String)
    (s : σ) : σ × Option GoErr :=
  match st.deviceGet uid s with
  | (s1, Except.error e) => (s1, some (GoErr.deviceNotFound uid e))
  | (s1, Except.ok device) =>
    if device.tags.contains tag then
      st.deviceRemoveTag uid tag s1
    else
      (s1, some (GoErr.tagNotFound tag GoErr.nilErr))

/-- Modelled from the spec (§4.3) and src/api/services/device_tags_test.go
(the service source is not under src/): service.UpdateDeviceTag fetches
the device, turning any DeviceGet error into the typed device-not-found
error wrapping it, then issues the DeviceUpdateTag store write and
returns its outcome unchanged (duplicate batches are rejected earlier, at
the request boundary). -/
def svcUpdateDeviceTag {σ : Type} (st : TagStore σ) (uid : String)
    (tags : List String) (s : σ) : σ × Option GoErr :=
  match st.deviceGet uid s with
  | (s1, Except.error e) => (s1, some (GoErr.deviceNotFound uid e))
  | (s1, Except.ok _device) => st.deviceUpdateTag uid tags s1

/-- A reference single-device in-memory store, used to instantiate the
abstract store in scenario theorems: the state is the one device record;
DeviceGet returns it, DeviceCreateTag appends the tag to its tag list,
DeviceRemoveTag erases the tag, DeviceUpdateTag replaces the tag list. -/
def memStore : TagStore Device where
  deviceGet := fun _ d => (d, Except.ok d)
  deviceCreateTag := fun _ tag d => ({ d with tags := d.tags ++ [tag] }, none)
  deviceRemoveTag := fun _ tag d => ({ d with tags := d.tags.erase tag }, none)
  deviceUpdateTag := fun _ tags d => ({ d with tags := tags }, none)

/-- User record (models.User) restricted to the fields the setup saga
sets; the ID is the Go zero value at creation time. -/
structure User where
  id : String := ""
  name : String := ""
  email : String := ""
  username : String := ""
  password : String := ""
  confirmed : Bool := false
  createdAt : Nat := 0
deriving DecidableEq, Repr

/-- Namespace member (models.Member). -/
structure Member where
  id : String := ""
  role : String := ""
deriving DecidableEq, Repr

/-- Namespace record (models.Namespace) restricted to the fields the
setup saga sets. -/
structure Namespace where
  name : String := ""
  owner : String := ""
  maxDevices : Int := 0
  members : List Member := []
  createdAt : Nat := 0
deriving DecidableEq, Repr

/-- requests.Setup. -/
structure SetupReq where
  email : String := ""
  name : String := ""
  username : String := ""
  password : String := ""
  namespaceName : String := ""

/-- The store collaborator of the setup saga. -/
structure SetupStore (σ : Type) where
  userCreate : User → σ → σ × Option GoErr
  namespaceCreate : Namespace → σ → σ × Option GoErr

/-- The user record the setup saga creates: password pre-hashed through
the supplied hash, always marked confirmed, creation timestamp captured
from the clock. -/
def setupUser (hash : String → String) (now : Nat) (req : SetupReq) :
    User :=
  { name := req.name, email := req.email, username := req.username,
    password := hash req.password, confirmed := true, createdAt := now }

/-- The namespace record the setup saga creates: named from the request,
owned by the new user, with that user as sole member with role owner. -/
def setupNamespace (now : Nat) (req : SetupReq) (user : User) :
    Namespace :=
  { name := req.namespaceName, owner := user.id, maxDevices := 0,
    members := [{ id := user.id, role := "owner" }], createdAt := now }

/-- Modelled from the spec (§4.5) and src/api/services/setup_test.go (the
service source is not under src/): service.Setup is a two-step saga —
create the user record (UserCreate failure becomes the user-duplicated
error wrapping the store error, and the namespace step is not attempted),
then create the namespace (NamespaceCreate failure becomes the
namespace-duplicated error wrapping the store error, with no rollback of
the created user). -/
def Setup {σ : Type} (st : SetupStore σ) (hash : String → String)
    (now : Nat) (req : SetupReq) (s : σ) : σ × Option GoErr :=
  let user := setupUser hash now req
  match st.userCreate user s with
  | (s1, some e) => (s1, some (GoErr.userDuplicated [req.username] e))
  | (s1, none) =>
    match st.namespaceCreate (setupNamespace now req user) s1 with
    | (s2, some e) => (s2, some (GoErr.namespaceDuplicated e))
    | (s2, none) => (s2, none)

/-- A concrete call-counting service over Nat, used to instantiate the
abstract service collaborator in witness statements: every operation
bumps the counter and succeeds. -/
def countService : Service Nat where
  getDevice := fun _ n => (n + 1, Except.ok {})
  deleteDevice := fun _ _ n => (n + 1, none)
  renameDevice := fun _ _ _ n => (n + 1, none)
  listDevices := fun _ _ _ _ _ _ _ n => (n + 1, Except.ok ([], 0))
  getDeviceByPublicURLAddress := fun _ n => (n + 1, Except.ok {})
  lookupDevice := fun _ _ n => (n + 1, Except.ok {})
  updateDeviceStatus := fun _ _ _ n => (n + 1, none)
  createDeviceTag := fun _ _ n => (n + 1, none)
  removeDeviceTag := fun _ _ n => (n + 1, none)
  updateDeviceTag := fun _ _ n => (n + 1, none)
  updateDevice := fun _ _ _ _ n => (n + 1, none)

/-- C1: for every role, action and wrapped operation, a (role, action)
pair denied by the capability table makes EvaluatePermission return the
forbidden error with the state unchanged — the wrapped operation is never
invoked, so no side effects occur on denial — while an authorized pair
makes it invoke the operation exactly once and return its outcome,
success or domain error, unchanged. -/
theorem c1_evaluatePermission_guard {σ : Type} (table : CapTable)
    (role : String) (action : DeviceAction)
    (operation : σ → σ × Option GoErr) (s : σ) :
    (table role action = false →
      EvaluatePermission table role action operation s =
        (s, some GoErr.forbidden)) ∧
    (table role action = true →
      EvaluatePermission table role action operation s = operation s) := by
  constructor <;> intro h <;> simp [EvaluatePermission, h]

/-- Witness for C1, with the wrapped operation instrumented as a call
counter: denial leaves the counter at 0 (no invocation) and returns
forbidden; authorization bumps it to 1 (exactly one invocation) and
returns the operation outcome unchanged. -/
theorem c1_evaluatePermission_guard_witness :
    EvaluatePermission (fun _ _ => false) "observer" DeviceAction.remove
      (fun n => (n + 1, none)) 0 = (0, some GoErr.forbidden) ∧
    EvaluatePermission (fun _ _ => true) "owner" DeviceAction.remove
      (fun n => (n + 1, none)) 0 = (1, none) := by
  constructor
  · exact (c1_evaluatePermission_guard (fun _ _ => false) "observer"
      DeviceAction.remove (fun n => (n + 1, none)) 0).1 rfl
  · exact ((c1_evaluatePermission_guard (fun _ _ => true) "owner"
      DeviceAction.remove (fun n => (n + 1, none)) 0).2 rfl).trans rfl

/-- C2: tag validation succeeds exactly when the tag length lies in
[3, 255] and the tag contains none of the characters forbidden for tags;
any violation is rejected with the validation error. -/
theorem c2_validateTag_iff (t : String) :
    validateTag t = none ↔
      (3 ≤ t.length ∧ t.length ≤ 255 ∧
        ∀ c ∈ t.data, c ≠ '/' ∧ c ≠ '&' ∧ c ≠ '@') := by
  simp only [validateTag]
  split_ifs with h1 h2 h3
  · exact iff_of_false (by simp) (fun h => absurd h.1 (by omega))
  · exact iff_of_false (by simp) (fun h => absurd h.2.1 (by omega))
  · refine iff_of_false (by simp) (fun h => ?_)
    obtain ⟨c, hc, hv⟩ := List.any_eq_true.mp h3
    have hne := h.2.2 c hc
    simp only [Bool.or_eq_true, decide_eq_true_eq] at hv
    rcases hv with (hv | hv) | hv
    · exact hne.1 hv
    · exact hne.2.1 hv
    · exact hne.2.2 hv
  · refine iff_of_true rfl ⟨by omega, by omega, fun c hc => ?_⟩
    have hnot : ∀ hp : (c = '/' || c = '&' || c = '@') = true, False :=
      fun hp => h3 (List.any_eq_true.mpr ⟨c, hc, hp⟩)
    refine ⟨fun hq => hnot (by simp [hq]), fun hq => hnot (by simp [hq]),
      fun hq => hnot (by simp [hq])⟩

/-- Counterexample to C3 as stated: a store whose DeviceGet fails with an
opaque store error that is not a not-found is not forwarded verbatim —
CreateTag re-types it into the typed device-not-found error wrapping it,
exactly as the service test (src/api/services/device_tags_test.go, case
with errors.New) expects. -/
theorem c3_counterexample :
    (svcCreateDeviceTag
      { deviceGet := fun _ n => (n, Except.error (GoErr.store "error")),
        deviceCreateTag := fun _ _ n => (n + 1, none),
        deviceRemoveTag := fun _ _ n => (n + 1, none),
        deviceUpdateTag := fun _ _ n => (n + 1, none) }
      "invalid_uid" "device1" 0).2 =
      some (GoErr.deviceNotFound "invalid_uid" (GoErr.store "error")) ∧
    (svcCreateDeviceTag
      { deviceGet := fun _ n => (n, Except.error (GoErr.store "error")),
        deviceCreateTag := fun _ _ n => (n + 1, none),
        deviceRemoveTag := fun _ _ n => (n + 1, none),
        deviceUpdateTag := fun _ _ n => (n + 1, none) }
      "invalid_uid" "device1" 0).2 ≠ some (GoErr.store "error") := by
  exact ⟨rfl, by decide⟩

/-- C3 amended: every store error from the device-fetch step — whether or
not it is a not-found — is translated into the typed device-not-found
error of that operation, wrapping the original store error; store errors
from the subsequent tag-write store calls are forwarded to the caller
verbatim, without wrapping or suppression. -/
theorem c3_store_error_propagation {σ : Type} (st : TagStore σ)
    (uid tag : String) (tags : List String) (s s1 : σ) (e : GoErr)
    (d : Device) :
    (st.deviceGet uid s = (s1, Except.error e) →
      svcCreateDeviceTag st uid tag s =
        (s1, some (GoErr.deviceNotFound uid e)) ∧
      svcRemoveDeviceTag st uid tag s =
        (s1, some (GoErr.deviceNotFound uid e)) ∧
      svcUpdateDeviceTag st uid tags s =
        (s1, some (GoErr.deviceNotFound uid e))) ∧
    (st.deviceGet uid s = (s1, Except.ok d) →
      (d.tags.contains tag = false →
        svcCreateDeviceTag st uid tag s = st.deviceCreateTag uid tag s1) ∧
      (d.tags.contains tag = true →
        svcRemoveDeviceTag st uid tag s = st.deviceRemoveTag uid tag s1) ∧
      svcUpdateDeviceTag st uid tags s = st.deviceUpdateTag uid tags s1) := by
  constructor
  · intro h
    refine ⟨?_, ?_, ?_⟩ <;>
      simp [svcCreateDeviceTag, svcRemoveDeviceTag, svcUpdateDeviceTag, h]
  · intro h
    refine ⟨fun hc => ?_, fun hc => ?_, ?_⟩
    · have hm : tag ∉ d.tags := by
        intro hmem
        simp [List.elem_eq_mem, hmem] at hc
      simp [svcCreateDeviceTag, h, hm]
    · have hm : tag ∈ d.tags := by
        by_contra hmem
        simp [List.elem_eq_mem, hmem] at hc
      simp [svcRemoveDeviceTag, h, hm]
    · simp [svcUpdateDeviceTag, h]

/-- Witness for the amended C3, mirroring the service test cases: a
DeviceGet failure is re-typed into the device-not-found wrapper, and a
DeviceRemoveTag store error is passed through unchanged. -/
theorem c3_store_error_propagation_witness :
    svcRemoveDeviceTag
      { deviceGet := fun _ n => (n, Except.error (GoErr.store "error")),
        deviceCreateTag := fun _ _ n => (n + 1, none),
        deviceRemoveTag := fun _ _ n => (n + 1, none),
        deviceUpdateTag := fun _ _ n => (n + 1, none) }
      "invalid_uid" "device1" (0 : Nat) =
      (0, some (GoErr.deviceNotFound "invalid_uid" (GoErr.store "error"))) ∧
    svcRemoveDeviceTag
      { deviceGet := fun _ n =>
          (n, Except.ok
            ({ uid := "uid", tenantID := "tenant", tags := ["device1"] } :
              Device)),
        deviceCreateTag := fun _ _ n => (n + 1, none),
        deviceRemoveTag := fun _ _ n => (n + 1, some (GoErr.store "error")),
        deviceUpdateTag := fun _ _ n => (n + 1, none) }
      "uid" "device1" (0 : Nat) = (1, some (GoErr.store "error")) := by
  constructor
  · exact ((c3_store_error_propagation
      { deviceGet := fun _ n => (n, Except.error (GoErr.store "error")),
        deviceCreateTag := fun _ _ n => (n + 1, none),
        deviceRemoveTag := fun _ _ n => (n + 1, none),
        deviceUpdateTag := fun _ _ n => (n + 1, none) }
      "invalid_uid" "device1" [] 0 0 (GoErr.store "error") {}).1 rfl).2.1
  · exact (((c3_store_error_propagation
      { deviceGet := fun _ n =>
          (n, Except.ok
            ({ uid := "uid", tenantID := "tenant", tags := ["device1"] } :
              Device)),
        deviceCreateTag := fun _ _ n => (n + 1, none),
        deviceRemoveTag := fun _ _ n => (n + 1, some (GoErr.store "error")),
        deviceUpdateTag := fun _ _ n => (n + 1, none) }
      "uid" "device1" [] 0 0 GoErr.nilErr
      { uid := "uid", tenantID := "tenant", tags := ["device1"] }).2
      rfl).2.1 rfl).trans rfl

/-- C4: CreateTag on a device whose tag set already contains the tag
fails with the duplicated-tag error regardless of any other store state,
while a tag not present on the device is accepted and, with the reference
in-memory store, the tag set of the device becomes the old set with the
tag appended. -/
theorem c4_createTag_duplicated_or_append {σ : Type} (st : TagStore σ)
    (uid tag : String) (s s1 : σ) (d : Device) :
    (st.deviceGet uid s = (s1, Except.ok d) → tag ∈ d.tags →
      svcCreateDeviceTag st uid tag s =
        (s1, some (GoErr.tagDuplicated tag GoErr.nilErr))) ∧
    (∀ dev : Device, tag ∉ dev.tags →
      svcCreateDeviceTag memStore uid tag dev =
        ({ dev with tags := dev.tags ++ [tag] }, none)) := by
  constructor
  · intro h hm
    simp [svcCreateDeviceTag, h, List.elem_eq_mem, hm]
  · intro dev hm
    simp [svcCreateDeviceTag, memStore, List.elem_eq_mem, hm]

/-- Witness for C4, the spec scenario: on tag set consisting of device1,
creating device1 yields the duplicated-tag error with the set unchanged,
and creating device6 succeeds with the new set device1, device6. -/
theorem c4_createTag_duplicated_or_append_witness :
    svcCreateDeviceTag memStore "uid" "device1"
      { uid := "uid", tenantID := "tenant", tags := ["device1"] } =
      ({ uid := "uid", tenantID := "tenant", tags := ["device1"] },
        some (GoErr.tagDuplicated "device1" GoErr.nilErr)) ∧
    svcCreateDeviceTag memStore "uid" "device6"
      { uid := "uid", tenantID := "tenant", tags := ["device1"] } =
      ({ uid := "uid", tenantID := "tenant", tags := ["device1", "device6"] },
        none) := by
  constructor
  · exact (c4_createTag_duplicated_or_append memStore "uid" "device1"
      { uid := "uid", tenantID := "tenant", tags := ["device1"] }
      { uid := "uid", tenantID := "tenant", tags := ["device1"] }
      { uid := "uid", tenantID := "tenant", tags := ["device1"] }).1
      rfl (by decide)
  · exact ((c4_createTag_duplicated_or_append memStore "uid" "device6"
      { uid := "uid", tenantID := "tenant", tags := ["device1"] }
      { uid := "uid", tenantID := "tenant", tags := ["device1"] }
      { uid := "uid", tenantID := "tenant", tags := ["device1"] }).2
      { uid := "uid", tenantID := "tenant", tags := ["device1"] }
      (by decide)).trans rfl

/-- C5: RemoveTag on a device whose tag set does not contain the tag
fails with the tag-not-found error, and with the reference in-memory
store the device record — in particular its tag set — is unchanged. -/
theorem c5_removeTag_not_found {σ : Type} (st : TagStore σ)
    (uid tag : String) (s s1 : σ) (d : Device) :
    (st.deviceGet uid s = (s1, Except.ok d) → tag ∉ d.tags →
      svcRemoveDeviceTag st uid tag s =
        (s1, some (GoErr.tagNotFound tag GoErr.nilErr))) ∧
    (∀ dev : Device, tag ∉ dev.tags →
      svcRemoveDeviceTag memStore uid tag dev =
        (dev, some (GoErr.tagNotFound tag GoErr.nilErr))) := by
  constructor
  · intro h hm
    simp [svcRemoveDeviceTag, h, List.elem_eq_mem, hm]
  · intro dev hm
    simp [svcRemoveDeviceTag, memStore, List.elem_eq_mem, hm]

/-- Witness for C5, the spec scenario: removing device2 from the tag set
consisting of device1 yields the tag-not-found error and leaves the
device record unchanged. -/
theorem c5_removeTag_not_found_witness :
    svcRemoveDeviceTag memStore "uid" "device2"
      { uid := "uid", tenantID := "tenant", tags := ["device1"] } =
      ({ uid := "uid", tenantID := "tenant", tags := ["device1"] },
        some (GoErr.tagNotFound "device2" GoErr.nilErr)) :=
  (c5_removeTag_not_found memStore "uid" "device2"
    { uid := "uid", tenantID := "tenant", tags := ["device1"] }
    { uid := "uid", tenantID := "tenant", tags := ["device1"] }
    { uid := "uid", tenantID := "tenant", tags := ["device1"] }).2
    { uid := "uid", tenantID := "tenant", tags := ["device1"] }
    (by decide)

/-- C6: a bulk tag update whose tag list contains an internal duplicate
(exact string equality) fails with the validation error, for every
capability table and every service, with the threaded state unchanged —
so no store write occurs. -/
theorem c6_updateTags_duplicate_rejected {σ : Type} (table : CapTable)
    (svc : Service σ) (c : Ctx) (req : DeviceUpdateTag) (s : σ) :
    c.bindErr = none → hasInternalDup req.tags = true →
    UpdateDeviceTag table svc c req s = (s, Except.error GoErr.validation) := by
  intro hb hd
  unfold UpdateDeviceTag
  rw [hb]
  unfold validateTagsRequest validateTags
  by_cases h : req.uid = "" <;> simp [h, hd]

/-- Witness for C6, mirroring the route test case with a duplicated tag:
the handler rejects the batch with the validation error and the service
counter stays at 0. -/
theorem c6_updateTags_duplicate_rejected_witness :
    hasInternalDup ["tagduplicated", "tagduplicated"] = true ∧
    UpdateDeviceTag (fun _ _ => true) countService
      { role := "owner", tenant := some "tenant-id" }
      { uid := "1234", tags := ["tagduplicated", "tagduplicated"] } 0 =
      (0, Except.error GoErr.validation) :=
  ⟨by decide,
    c6_updateTags_duplicate_rejected (fun _ _ => true) countService
      { role := "owner", tenant := some "tenant-id" }
      { uid := "1234", tags := ["tagduplicated", "tagduplicated"] } 0
      rfl (by decide)⟩

/-- C7: with binding and validation succeeding, each of the seven
mutating handlers — delete, rename, status-accept, tag create, tag
update, tag remove, and public-URL update — equals exactly one
EvaluatePermission call at its own action wrapping its single service
invocation, while the read-only handlers — get, get-by-public-address,
lookup, and list — equal the direct service invocation with no guard
involved. -/
theorem c7_guard_per_operation {σ : Type} (table : CapTable)
    (svc : Service σ) (um : List Nat → Except GoErr (List Filter))
    (c : Ctx) (s : σ) :
    c.bindErr = none → c.validateErr = none →
    ((∀ req : DeviceDelete,
        DeleteDevice table svc c req s =
          guardWrap (EvaluatePermission table c.role DeviceAction.remove
            (fun s => svc.deleteDevice req.uid (tenantOf c) s) s)) ∧
      (∀ req : DeviceRename,
        RenameDevice table svc c req s =
          guardWrap (EvaluatePermission table c.role DeviceAction.rename
            (fun s => svc.renameDevice req.uid req.name (tenantOf c) s) s)) ∧
      (∀ req : DeviceUpdateStatus,
        UpdateDeviceStatus table svc c req s =
          guardWrap (EvaluatePermission table c.role DeviceAction.accept
            (fun s => svc.updateDeviceStatus (tenantOf c) req.uid
              (statusLookup req.status) s) s)) ∧
      (∀ req : DeviceCreateTag, validateTagRequest req.uid req.tag = none →
        CreateDeviceTag table svc c req s =
          guardWrap (EvaluatePermission table c.role DeviceAction.createTag
            (fun s => svc.createDeviceTag req.uid req.tag s) s)) ∧
      (∀ req : DeviceRemoveTag, validateTagRequest req.uid req.tag = none →
        RemoveDeviceTag table svc c req s =
          guardWrap (EvaluatePermission table c.role DeviceAction.removeTag
            (fun s => svc.removeDeviceTag req.uid req.tag s) s)) ∧
      (∀ req : DeviceUpdateTag, validateTagsRequest req.uid req.tags = none →
        UpdateDeviceTag table svc c req s =
          guardWrap (EvaluatePermission table c.role DeviceAction.updateTag
            (fun s => svc.updateDeviceTag req.uid req.tags s) s)) ∧
      (∀ req : DeviceUpdate,
        UpdateDevice table svc c req s =
          guardWrap (EvaluatePermission table c.role DeviceAction.update
            (fun s => svc.updateDevice (tenantOf c) req.uid req.name
              req.publicURL s) s))) ∧
    ((∀ req : DeviceGet,
        GetDevice svc c req s =
          (match svc.getDevice req.uid s with
           | (s1, Except.error e) => (s1, Except.error e)
           | (s1, Except.ok device) => (s1, Except.ok (HOut.json 200 device)))) ∧
      (∀ req : DevicePublicURLAddress,
        GetDeviceByPublicURLAddress svc c req s =
          (match svc.getDeviceByPublicURLAddress req.publicURLAddress s with
           | (s1, Except.error e) => (s1, Except.error e)
           | (s1, Except.ok device) => (s1, Except.ok (HOut.json 200 device)))) ∧
      (∀ req : DeviceLookup,
        LookupDevice svc c req s =
          (match svc.lookupDevice req.domain req.name s with
           | (s1, Except.error e) => (s1, Except.error e)
           | (s1, Except.ok device) => (s1, Except.ok (HOut.json 200 device)))) ∧
      (∀ q : FilterQuery, q.filter = "" →
        GetDeviceList svc um c q s =
          (match svc.listDevices (tenantOf c) q.normalize.page
              q.normalize.perPage [] q.status q.sortBy q.orderBy s with
           | (s1, Except.error e) => (s1, Except.error e)
           | (s1, Except.ok (devices, count)) =>
             (s1, Except.ok (HOut.jsonList 200 devices count))))) := by
  intro hb hv
  refine ⟨⟨fun req => ?_, fun req => ?_, fun req => ?_, fun req hvt => ?_,
    fun req hvt => ?_, fun req hvt => ?_, fun req => ?_⟩,
    fun req => ?_, fun req => ?_, fun req => ?_, fun q hf => ?_⟩
  · unfold DeleteDevice
    rw [hb, hv]
  · unfold RenameDevice
    rw [hb, hv]
  · unfold UpdateDeviceStatus
    rw [hb, hv]
  · unfold CreateDeviceTag
    rw [hb, hvt]
  · unfold RemoveDeviceTag
    rw [hb, hvt]
  · unfold UpdateDeviceTag
    rw [hb, hvt]
  · unfold UpdateDevice
    rw [hb, hv]
  · unfold GetDevice
    rw [hb, hv]
  · unfold GetDeviceByPublicURLAddress
    rw [hb, hv]
  · unfold LookupDevice
    rw [hb, hv]
  · obtain ⟨qf, qs, qsb, qob, qp, qpp⟩ := q
    cases hf
    unfold GetDeviceList
    rw [hb]
    rfl

/-- Witness for C7: with an all-allow table the delete handler performs
its one service call (counter 1) and succeeds; with an all-deny table it
returns forbidden with the counter untouched at 0; the unguarded get
handler performs its direct service call regardless of any table. -/
theorem c7_guard_per_operation_witness :
    DeleteDevice (fun _ _ => true) countService
      { role := "owner", tenant := some "tenant-id" } { uid := "123" } 0 =
      (1, Except.ok (HOut.noContent 200)) ∧
    DeleteDevice (fun _ _ => false) countService
      { role := "observer", tenant := some "tenant-id" } { uid := "123" } 0 =
      (0, Except.error GoErr.forbidden) ∧
    GetDevice countService { role := "observer" } { uid := "123" } 0 =
      (1, Except.ok (HOut.json 200 {})) := by
  refine ⟨?_, ?_, ?_⟩
  · exact ((c7_guard_per_operation (fun _ _ => true) countService
      (fun _ => Except.ok []) { role := "owner", tenant := some "tenant-id" }
      0 rfl rfl).1.1 { uid := "123" }).trans rfl
  · exact ((c7_guard_per_operation (fun _ _ => false) countService
      (fun _ => Except.ok [])
      { role := "observer", tenant := some "tenant-id" }
      0 rfl rfl).1.1 { uid := "123" }).trans rfl
  · exact ((c7_guard_per_operation (fun _ _ => true) countService
      (fun _ => Except.ok []) { role := "observer" }
      0 rfl rfl).2.1 { uid := "123" }).trans rfl

/-- C8: listing with a filter payload whose decoded predicate sequence is
empty returns the same result as listing with the empty/absent payload —
for every service, so the result sets coincide — and a filter payload
that fails base64 decoding makes the listing fail with that error, the
service never invoked (state unchanged). -/
theorem c8_list_empty_filter_and_decode_failure {σ : Type}
    (svc : Service σ) (um : List Nat → Except GoErr (List Filter))
    (c : Ctx) (q : FilterQuery) (s : σ) (e : GoErr) :
    (c.bindErr = none →
      ∀ raw, base64Decode q.filter = Except.ok raw →
        (if 0 < raw.length then um raw else Except.ok []) = Except.ok [] →
        GetDeviceList svc um c q s =
          GetDeviceList svc um c { q with filter := "" } s) ∧
    (c.bindErr = none → base64Decode q.filter = Except.error e →
      GetDeviceList svc um c q s = (s, Except.error e)) := by
  obtain ⟨qf, qs, qsb, qob, qp, qpp⟩ := q
  constructor
  · intro hb raw hdec hum
    unfold GetDeviceList
    rw [hb]
    dsimp only [FilterQuery.normalize] at hdec ⊢
    rw [hdec]
    dsimp only
    rw [hum]
    rfl
  · intro hb hdec
    unfold GetDeviceList
    rw [hb]
    dsimp only [FilterQuery.normalize] at hdec ⊢
    rw [hdec]

/-- Witness for C8: the payload encoding the empty JSON array (decoding
to the bytes of a two-character array literal, unmarshalled to the empty
predicate list) lists identically to the empty payload, and an
invalid-base64 payload fails with the corrupt-input error while the
service counter stays at 0. -/
theorem c8_list_empty_filter_and_decode_failure_witness :
    GetDeviceList countService
      (fun raw => if raw = [91, 93] then Except.ok []
        else Except.error (GoErr.store "bad"))
      { role := "owner", tenant := some "tenant-id" }
      { filter := "W10=", status := "online", sortBy := "name",
        orderBy := "asc", page := 1, perPage := 10 } 0 =
      GetDeviceList countService
        (fun raw => if raw = [91, 93] then Except.ok []
          else Except.error (GoErr.store "bad"))
        { role := "owner", tenant := some "tenant-id" }
        { filter := "", status := "online", sortBy := "name",
          orderBy := "asc", page := 1, perPage := 10 } 0 ∧
    GetDeviceList countService
      (fun raw => if raw = [91, 93] then Except.ok []
        else Except.error (GoErr.store "bad"))
      { role := "owner", tenant := some "tenant-id" }
      { filter := "!", status := "online", sortBy := "name",
        orderBy := "asc", page := 1, perPage := 10 } 0 =
      (0, Except.error GoErr.corruptInput) := by
  constructor
  · exact (c8_list_empty_filter_and_decode_failure countService
      (fun raw => if raw = [91, 93] then Except.ok []
        else Except.error (GoErr.store "bad"))
      { role := "owner", tenant := some "tenant-id" }
      { filter := "W10=", status := "online", sortBy := "name",
        orderBy := "asc", page := 1, perPage := 10 } 0
      GoErr.corruptInput).1 rfl [91, 93] rfl rfl
  · exact (c8_list_empty_filter_and_decode_failure countService
      (fun raw => if raw = [91, 93] then Except.ok []
        else Except.error (GoErr.store "bad"))
      { role := "owner", tenant := some "tenant-id" }
      { filter := "!", status := "online", sortBy := "name",
        orderBy := "asc", page := 1, perPage := 10 } 0
      GoErr.corruptInput).2 rfl rfl

/-- C9: in the Setup saga, a user-creation failure makes the whole
operation fail with the user-duplicated error wrapping the store error
and namespace creation is never attempted (the resulting state is
exactly the one the user-creation call left, for every namespace-create
behavior); a namespace-creation failure after a successful user creation
makes the operation fail with the namespace-duplicated error, and the
created user record is not rolled back (the resulting state is exactly
the one the two store calls left, with no compensating call). -/
theorem c9_setup_saga {σ : Type} (st : SetupStore σ)
    (hash : String → String) (now : Nat) (req : SetupReq) (s s1 s2 : σ)
    (e e2 : GoErr) :
    (st.userCreate (setupUser hash now req) s = (s1, some e) →
      Setup st hash now req s =
        (s1, some (GoErr.userDuplicated [req.username] e))) ∧
    (st.userCreate (setupUser hash now req) s = (s1, none) →
      st.namespaceCreate (setupNamespace now req (setupUser hash now req))
        s1 = (s2, some e2) →
      Setup st hash now req s =
        (s2, some (GoErr.namespaceDuplicated e2))) := by
  constructor
  · intro h
    simp [Setup, h]
  · intro h h2
    simp [Setup, h, h2]

/-- Witness for C9, with the store instrumented to log its calls: on
user-creation failure the log holds only the user-create call (namespace
creation never attempted) and the error is the user-duplicated wrapper;
on namespace-creation failure the log ends as user-create then
namespace-create — the user-create effect retained, nothing rolled back —
and the error is the namespace-duplicated wrapper. -/
theorem c9_setup_saga_witness :
    Setup
      { userCreate := fun _ tr => (tr ++ ["UserCreate"],
          some (GoErr.store "error")),
        namespaceCreate := fun _ tr => (tr ++ ["NamespaceCreate"], none) }
      (fun p => String.append "hashed-" p) 0
      { email := "teste@google.com", name := "userteste",
        username := "userteste", password := "123456",
        namespaceName := "teste-space" } [] =
      (["UserCreate"],
        some (GoErr.userDuplicated ["userteste"] (GoErr.store "error"))) ∧
    Setup
      { userCreate := fun _ tr => (tr ++ ["UserCreate"], none),
        namespaceCreate := fun _ tr => (tr ++ ["NamespaceCreate"],
          some (GoErr.store "error")) }
      (fun p => String.append "hashed-" p) 0
      { email := "teste@google.com", name := "userteste",
        username := "userteste", password := "123456",
        namespaceName := "teste-space" } [] =
      (["UserCreate", "NamespaceCreate"],
        some (GoErr.namespaceDuplicated (GoErr.store "error"))) := by
  constructor
  · exact (c9_setup_saga
      { userCreate := fun _ tr => (tr ++ ["UserCreate"],
          some (GoErr.store "error")),
        namespaceCreate := fun _ tr => (tr ++ ["NamespaceCreate"], none) }
      (fun p => String.append "hashed-" p) 0
      { email := "teste@google.com", name := "userteste",
        username := "userteste", password := "123456",
        namespaceName := "teste-space" } [] ["UserCreate"] []
      (GoErr.store "error") (GoErr.store "error")).1 rfl
  · exact (c9_setup_saga
      { userCreate := fun _ tr => (tr ++ ["UserCreate"], none),
        namespaceCreate := fun _ tr => (tr ++ ["NamespaceCreate"],
          some (GoErr.store "error")) }
      (fun p => String.append "hashed-" p) 0
      { email := "teste@google.com", name := "userteste",
        username := "userteste", password := "123456",
        namespaceName := "teste-space" } [] ["UserCreate"]
      ["UserCreate", "NamespaceCreate"]
      (GoErr.store "error") (GoErr.store "error")).2 rfl rfl

/-- C10: the status-update handler maps exactly the four strings accept,
reject, pending and unused to the corresponding device status values;
any other status string (with request validation passing) is mapped to
the zero/empty status value and is still forwarded to the service
status-update operation under the accept-action guard rather than being
rejected by the handler. -/
theorem c10_updateDeviceStatus_mapping {σ : Type} (table : CapTable)
    (svc : Service σ) (c : Ctx) (req : DeviceUpdateStatus) (s : σ) :
    c.bindErr = none → c.validateErr = none →
    ((statusLookup "accept" = "accepted" ∧
      statusLookup "reject" = "rejected" ∧
      statusLookup "pending" = "pending" ∧
      statusLookup "unused" = "unused") ∧
     (req.status ≠ "accept" → req.status ≠ "reject" →
       req.status ≠ "pending" → req.status ≠ "unused" →
       statusLookup req.status = "") ∧
     UpdateDeviceStatus table svc c req s =
       guardWrap (EvaluatePermission table c.role DeviceAction.accept
         (fun s => svc.updateDeviceStatus (tenantOf c) req.uid
           (statusLookup req.status) s) s)) := by
  intro hb hv
  refine ⟨⟨rfl, rfl, rfl, rfl⟩, ?_, ?_⟩
  · intro h1 h2 h3 h4
    simp [statusLookup, h1, h2, h3, h4]
  · unfold UpdateDeviceStatus
    rw [hb, hv]

/-- Witness for C10: the unknown status string banana maps to the empty
status value, yet the handler still performs the guarded service call
(counter 1) instead of rejecting the request. -/
theorem c10_updateDeviceStatus_mapping_witness :
    statusLookup "banana" = "" ∧
    UpdateDeviceStatus (fun _ _ => true) countService
      { role := "owner", tenant := some "tenant-id" }
      { uid := "123", status := "banana" } 0 =
      (1, Except.ok (HOut.noContent 200)) := by
  have h := c10_updateDeviceStatus_mapping (fun _ _ => true) countService
    { role := "owner", tenant := some "tenant-id" }
    { uid := "123", status := "banana" } 0 rfl rfl
  exact ⟨h.2.1 (by decide) (by decide) (by decide) (by decide),
    h.2.2.trans rfl⟩

end ShellHub
